import Mathlib

/-!
Verification of the relief-map pipeline (`colormapping.py`).

The integer height grid is embedded as `List (List ℤ)`; the floating-point
geometry of the original program is embedded over `ℝ` (the heights handled
by the pipeline are integers, so all comparisons and the clamping logic are
exact); the color computations of the lookup table are embedded over `ℚ`
(the control-point coordinates and interpolation weights are rationals, so
the arithmetic is exact).  Fallible code (Python's `ZeroDivisionError`)
is embedded with `Option`.
-/

namespace ColorMapping

/-- Earth radius in meters (`EARTH_RADIUS = 6371009`). -/
noncomputable def EARTH_RADIUS : ℝ := 6371009

/-- Latitude north, degrees (`LAT_MIN = 45`). -/
noncomputable def LAT_MIN : ℝ := 45

/-- Latitude north, degrees (`LAT_MAX = 47.5`). -/
noncomputable def LAT_MAX : ℝ := 47.5

/-- Longitude east, degrees (`LONG_MIN = 5`). -/
noncomputable def LONG_MIN : ℝ := 5

/-- Longitude east, degrees (`LONG_MAX = 7.5`). -/
noncomputable def LONG_MAX : ℝ := 7.5

/-- Number of identical height values needed to consider an area flat
(`NBR_VAL_FLAT = 8`). -/
def NBR_VAL_FLAT : ℕ := 8

/-- `coord_to_idx(i, j, width) = j + i * width`: the 1D index of a 2D matrix
element. -/
def coord_to_idx (i j width : ℕ) : ℕ := j + i * width

/-- `math.radians`: degrees to radians. -/
noncomputable def radians (x : ℝ) : ℝ := x * Real.pi / 180

/-- The value computed by `spherical_coordinates` when no exception is
raised: steps, `delta`, `theta`, `rho` and the x/y/z formulas, exactly as
in the source.  The grid coordinates `latitude`/`longitude` are the loop
indices `i`/`j` (naturals) and `distance` is the (clamped) integer height. -/
noncomputable def sphericalValue (latitude longitude : ℕ) (distance : ℤ)
    (rows cols : ℕ) : ℝ × ℝ × ℝ :=
  let step_lat : ℝ := (LAT_MAX - LAT_MIN) / ((rows : ℝ) - 1)
  let step_long : ℝ := (LONG_MAX - LONG_MIN) / ((cols : ℝ) - 1)
  let delta : ℝ := radians (LAT_MAX - (latitude : ℝ) * step_lat)
  let theta : ℝ := radians (LONG_MIN + (longitude : ℝ) * step_long)
  let rho : ℝ := (distance : ℝ) + EARTH_RADIUS
  (rho * Real.cos delta * Real.cos theta,
   rho * Real.cos delta * Real.sin theta,
   rho * Real.sin delta)

/-- `spherical_coordinates`: the Python function divides by `rows - 1` and
`cols - 1` (Python ints), so it raises `ZeroDivisionError` exactly when
`rows = 1` or `cols = 1` (for `rows = 0` the denominator is `-1`, which
does not raise).  The exception is embedded as `none`. -/
noncomputable def spherical_coordinates (latitude longitude : ℕ) (distance : ℤ)
    (rows cols : ℕ) : Option (ℝ × ℝ × ℝ) :=
  if rows = 1 ∨ cols = 1 then none
  else some (sphericalValue latitude longitude distance rows cols)

/-- `find_neighbours`: the Python slices `m[max(0, i-1) : i+dist+1]` and
`row[max(0, j-dist) : j+dist+1]`, flattened.  A Python slice `l[a:b]`
(with `0 ≤ a ≤ b`) is `(l.drop a).take (b - a)`; truncated `ℕ`
subtraction gives exactly `max(0, ·)` for the lower bounds. -/
def find_neighbours (m : List (List ℤ)) (i j : ℕ) (dist : ℕ) : List ℤ :=
  (((m.drop (i - 1)).take (i + dist + 1 - (i - 1))).map
    (fun row => (row.drop (j - dist)).take (j + dist + 1 - (j - dist)))).flatten

/-- `is_neighbourhood_flat`: count the occurrences of each window value in
the window and compare the maximum count with `nbr_neighbours`.  Python's
`max` on the (always nonempty, in every reachable call) list of counts is
embedded as `foldr max 0`. -/
def is_neighbourhood_flat (m : List (List ℤ)) (i j nbr_neighbours dist : ℕ) :
    Bool :=
  let heights := find_neighbours m i j dist
  let counts := heights.map (fun h => heights.count h)
  decide (nbr_neighbours < counts.foldr max 0)

/-- `heights[i][j]` for the height matrix. -/
def hVal (heights : List (List ℤ)) (i j : ℕ) : ℤ :=
  (heights.getD i []).getD j 0

/-- The per-cell vertex height of `build_map`:
`height = sea_level if heights[i][j] <= sea_level else heights[i][j]`. -/
def cellHeight (heights : List (List ℤ)) (sea_level : ℤ) (i j : ℕ) : ℤ :=
  if hVal heights i j ≤ sea_level then sea_level else hVal heights i j

/-- The per-cell scalar of `build_map`:
`scalar = 0 if is_flat or heights[i][j] <= sea_level else heights[i][j]`,
with `is_flat = is_neighbourhood_flat(heights, i, j, NBR_VAL_FLAT, 1)`. -/
def cellScalar (heights : List (List ℤ)) (sea_level : ℤ) (i j : ℕ) : ℤ :=
  if is_neighbourhood_flat heights i j NBR_VAL_FLAT 1
      || decide (hVal heights i j ≤ sea_level)
  then 0 else hVal heights i j

/-- The row-major traversal order of the two nested loops of `build_map`:
`(i, j)` for `i in range(rows)`, `j in range(cols)`. -/
def cellList (rows cols : ℕ) : List (ℕ × ℕ) :=
  (List.range rows).flatMap fun i => (List.range cols).map fun j => (i, j)

/-- The quad emitted for cell `(i, j)`:
`(idx(i,j), idx(i,j+1), idx(i-1,j+1), idx(i-1,j))`. -/
def quadAt (i j cols : ℕ) : ℕ × ℕ × ℕ × ℕ :=
  (coord_to_idx i j cols, coord_to_idx i (j + 1) cols,
   coord_to_idx (i - 1) (j + 1) cols, coord_to_idx (i - 1) j cols)

/-- The face-emission step of `build_map`: `if i != 0 and j != 3000`,
emit `quadAt i j cols`. -/
def quadIf (cols : ℕ) (p : ℕ × ℕ) : Option (ℕ × ℕ × ℕ × ℕ) :=
  if p.1 ≠ 0 ∧ p.2 ≠ 3000 then some (quadAt p.1 p.2 cols) else none

/-- The cell array built by `build_map` (`cells.InsertNextCell` calls, in
loop order). -/
def cellsOf (rows cols : ℕ) : List (ℕ × ℕ × ℕ × ℕ) :=
  (cellList rows cols).filterMap (quadIf cols)

/-- The scalar array built by `build_map`.  The source writes the scalar of
cell `(i, j)` at index `coord_to_idx(i, j, cols)` (`InsertTuple1`), which in
the row-major traversal is exactly the sequential position, so the array is
the row-major list of per-cell scalars. -/
def scalarsOf (heights : List (List ℤ)) (rows cols : ℕ) (sea_level : ℤ) :
    List ℤ :=
  (cellList rows cols).map fun p => cellScalar heights sea_level p.1 p.2

/-- The polydata built by `build_map`: points (`InsertNextPoint`, in loop
order), per-vertex scalars, and the quad cells. -/
structure Mesh where
  vertices : List (ℝ × ℝ × ℝ)
  scalars : List ℤ
  cells : List (ℕ × ℕ × ℕ × ℕ)

/-- The mesh `build_map` produces when no exception is raised. -/
noncomputable def build_map_mesh (heights : List (List ℤ)) (rows cols : ℕ)
    (sea_level : ℤ) : Mesh :=
  { vertices := (cellList rows cols).map fun p =>
      sphericalValue p.1 p.2 (cellHeight heights sea_level p.1 p.2) rows cols
    scalars := scalarsOf heights rows cols sea_level
    cells := cellsOf rows cols }

/-- Sequence a fallible computation over a list, stopping at the first
failure (the embedding of a loop whose body may raise). -/
def seqOption {α β : Type} (f : α → Option β) : List α → Option (List β)
  | [] => some []
  | x :: xs =>
    match f x with
    | none => none
    | some y => (seqOption f xs).map fun ys => y :: ys

/-- `build_map(heights, rows, cols, sea_level)`: every loop iteration calls
`spherical_coordinates`, which may raise; the first failure aborts the
whole build with no output (embedded as `none`).  Otherwise the result is
the mesh of vertices, scalars and quads. -/
noncomputable def build_map (heights : List (List ℤ)) (rows cols : ℕ)
    (sea_level : ℤ) : Option Mesh :=
  match seqOption
      (fun p => spherical_coordinates p.1 p.2
        (cellHeight heights sea_level p.1 p.2) rows cols)
      (cellList rows cols) with
  | none => none
  | some vs =>
    some { vertices := vs
           scalars := scalarsOf heights rows cols sea_level
           cells := cellsOf rows cols }

/-- RGB color triple (components exact rationals). -/
abbrev Color := ℚ × ℚ × ℚ

/-- Componentwise linear interpolation between two colors. -/
def lerpColor (c0 c1 : Color) (t : ℚ) : Color :=
  (c0.1 + t * (c1.1 - c0.1),
   c0.2.1 + t * (c1.2.1 - c0.2.1),
   c0.2.2 + t * (c1.2.2 - c0.2.2))

/-- Modelled from the spec: the gradient evaluation
(`vtkColorTransferFunction.GetColor`) is external VTK library code, not
part of `src/`.  Following the spec's words, colors between control points
are linearly interpolated component-wise in RGB space and colors beyond
the last control point hold the last color.  `getColorFrom x0 c0 rest x`
evaluates the gradient at `x`, given that `x` lies strictly after the
control point `(x0, c0)` and that `rest` is the list of later control
points; a degenerate segment (`x1 = x0`) can never be selected because
`x ≤ x1 = x0` contradicts `x0 < x`. -/
def getColorFrom (x0 : ℚ) (c0 : Color) : List (ℚ × Color) → ℚ → Color
  | [], _ => c0
  | (x1, c1) :: rest, x =>
    if x ≤ x1 then lerpColor c0 c1 ((x - x0) / (x1 - x0))
    else getColorFrom x1 c1 rest x

/-- Modelled from the spec: piecewise-linear gradient lookup over the
control points, in their given order (see `getColorFrom`); at or before
the first control point the first color is returned. -/
def getColor (stops : List (ℚ × Color)) (x : ℚ) : Color :=
  match stops with
  | [] => (0, 0, 0)
  | (x0, c0) :: rest => if x ≤ x0 then c0 else getColorFrom x0 c0 rest x

/-- The lookup table of the pipeline: the table values set by the sampling
loop, the table range, and the below-range color. -/
structure LookupTable where
  colors : List Color
  tableRange : ℚ × ℚ
  belowRangeColor : Color

/-- The gradient control points added in `main` (in source order):
`(min_alt, green)`, `(mid_alt - 1000, beige)`, `(max_alt - 1000, white)`
with `mid_alt = (max_alt - min_alt) / 2`. -/
def ramp_points (min_alt max_alt : ℤ) : List (ℚ × Color) :=
  [((min_alt : ℚ), (0.25, 0.46, 0.24)),
   (((max_alt : ℚ) - (min_alt : ℚ)) / 2 - 1000, (0.73, 0.69, 0.55)),
   ((max_alt : ℚ) - 1000, (1.0, 1.0, 1.0))]

/-- `nbr_colors = int(max_alt - min_alt)`; a negative difference makes the
sampling loop `range(nbr_colors)` empty, like `Int.toNat`. -/
def nbr_colors (min_alt max_alt : ℤ) : ℕ := (max_alt - min_alt).toNat

/-- The lookup-table construction of `main` (lines 143-165): for each
integer offset `alt` in `range(nbr_colors)` the table value is the gradient
sampled at `min_alt + alt`; the range is `(min_alt, max_alt)` and the
below-range color is the blue `(0.34, 0.35, 0.67)`. -/
def buildLUT (min_alt max_alt : ℤ) : LookupTable :=
  { colors := (List.range (nbr_colors min_alt max_alt)).map fun (alt : ℕ) =>
      getColor (ramp_points min_alt max_alt) ((min_alt : ℚ) + (alt : ℚ))
    tableRange := ((min_alt : ℚ), (max_alt : ℚ))
    belowRangeColor := (0.34, 0.35, 0.67) }

/-- The 4 × 4 grid whose 16 cells all have elevation 100. -/
def allHundred : List (List ℤ) := List.replicate 4 (List.replicate 4 100)

/-- The spec-side flatness window (§4.2), written from the spec's words:
the values `grid[r][c]` for rows `r` in `[max(0, row-1) .. row+dist]` and
cols `c` in `[max(0, col-dist) .. col+dist]`, clipped to the grid. -/
def specWindow (m : List (List ℤ)) (rows cols i j dist : ℕ) : List ℤ :=
  (List.range' (i - 1) (min (i + dist + 1) rows - (i - 1))).flatMap fun r =>
    (List.range' (j - dist) (min (j + dist + 1) cols - (j - dist))).map fun c =>
      (m.getD r []).getD c 0

/-! ### Helper lemmas -/

theorem cellList_succ (r c : ℕ) :
    cellList (r + 1) c = cellList r c ++ (List.range c).map (fun j => (r, j)) := by
  unfold cellList
  rw [List.range_succ, List.flatMap_append]
  simp

theorem length_cellList (r c : ℕ) : (cellList r c).length = r * c := by
  induction r with
  | zero => simp [cellList]
  | succ r ih => rw [cellList_succ]; simp [ih, Nat.succ_mul]

theorem mem_cellList {r c : ℕ} {p : ℕ × ℕ} :
    p ∈ cellList r c ↔ p.1 < r ∧ p.2 < c := by
  obtain ⟨a, b⟩ := p
  simp only [cellList, List.mem_flatMap, List.mem_map, List.mem_range]
  constructor
  · rintro ⟨i, hi, j, hj, h⟩
    injection h with h1 h2
    subst h1; subst h2
    exact ⟨hi, hj⟩
  · rintro ⟨h1, h2⟩
    exact ⟨a, h1, b, h2, rfl⟩

theorem getD_map {α β : Type} (l : List α) (f : α → β) (n : ℕ) (d : β) (d' : α)
    (h : n < l.length) : (l.map f).getD n d = f (l.getD n d') := by
  rw [List.getD_eq_getElem _ _ (by simpa using h), List.getD_eq_getElem _ _ h,
    List.getElem_map]

theorem idx_lt {r c i j : ℕ} (hi : i < r) (hj : j < c) : j + i * c < r * c :=
  calc j + i * c < c + i * c := Nat.add_lt_add_right hj _
  _ = (i + 1) * c := by rw [Nat.succ_mul, Nat.add_comm]
  _ ≤ r * c := Nat.mul_le_mul_right c hi

theorem getD_cellList {r c i j : ℕ} (hi : i < r) (hj : j < c) :
    (cellList r c).getD (j + i * c) (0, 0) = (i, j) := by
  induction r with
  | zero => omega
  | succ r ih =>
    rw [cellList_succ]
    rcases Nat.lt_succ_iff_lt_or_eq.mp hi with h | h
    · rw [List.getD_append _ _ _ _ (by rw [length_cellList]; exact idx_lt h hj)]
      exact ih h
    · subst h
      rw [List.getD_append_right _ _ _ _ (by rw [length_cellList]; exact Nat.le_add_left _ _)]
      rw [length_cellList, Nat.add_sub_cancel]
      rw [getD_map _ _ _ _ 0 (by simpa using hj)]
      rw [List.getD_eq_getElem _ _ (by simpa using hj), List.getElem_range]

theorem idx_inj {c i i' j j' : ℕ} (hj : j < c) (hj' : j' < c)
    (h : j + i * c = j' + i' * c) : i = i' ∧ j = j' := by
  have hc : 0 < c := Nat.lt_of_le_of_lt (Nat.zero_le j) hj
  have h2 : j + c * i = j' + c * i' := by
    rw [Nat.mul_comm c i, Nat.mul_comm c i']; exact h
  have e1 : (j + c * i) / c = i := by
    rw [Nat.add_mul_div_left j i hc, Nat.div_eq_of_lt hj, Nat.zero_add]
  have e2 : (j' + c * i') / c = i' := by
    rw [Nat.add_mul_div_left j' i' hc, Nat.div_eq_of_lt hj', Nat.zero_add]
  have hii : i = i' := by rw [← e1, ← e2, h2]
  refine ⟨hii, ?_⟩
  rw [hii] at h2
  exact Nat.add_right_cancel h2

theorem mem_cellsOf {rows cols i j : ℕ} (hi : i < rows) (hj : j < cols) :
    quadAt i j cols ∈ cellsOf rows cols ↔ i ≠ 0 ∧ j ≠ 3000 := by
  unfold cellsOf
  rw [List.mem_filterMap]
  constructor
  · rintro ⟨⟨a, b⟩, hmem, hab⟩
    unfold quadIf at hab
    by_cases hcond : a ≠ 0 ∧ b ≠ 3000
    · rw [if_pos hcond] at hab
      have h1 := Option.some.inj hab
      simp only [quadAt, coord_to_idx, Prod.mk.injEq] at h1
      obtain ⟨hb, hcl⟩ := mem_cellList.mp hmem
      obtain ⟨rfl, rfl⟩ := idx_inj hcl hj h1.1
      exact hcond
    · rw [if_neg hcond] at hab
      exact absurd hab (by simp)
  · rintro ⟨h0, h3⟩
    exact ⟨(i, j), mem_cellList.mpr ⟨hi, hj⟩, by simp [quadIf, h0, h3]⟩

theorem seqOption_eq_some {α β : Type} (f : α → Option β) (g : α → β)
    (l : List α) (h : ∀ x ∈ l, f x = some (g x)) :
    seqOption f l = some (l.map g) := by
  induction l with
  | nil => rfl
  | cons a t ih =>
    have ha : f a = some (g a) := h a (List.mem_cons_self a t)
    have ht := ih (fun x hx => h x (List.mem_cons_of_mem a hx))
    simp [seqOption, ha, ht]

theorem seqOption_eq_none {α β : Type} (f : α → Option β) (l : List α)
    (hne : l ≠ []) (h : ∀ x, f x = none) : seqOption f l = none := by
  cases l with
  | nil => exact absurd rfl hne
  | cons a t => simp [seqOption, h a]

theorem build_map_eq_some (heights : List (List ℤ)) (rows cols : ℕ)
    (sea_level : ℤ) (hr : rows ≠ 1) (hc : cols ≠ 1) :
    build_map heights rows cols sea_level =
      some (build_map_mesh heights rows cols sea_level) := by
  unfold build_map
  rw [seqOption_eq_some _
    (fun p => sphericalValue p.1 p.2 (cellHeight heights sea_level p.1 p.2) rows cols)
    _ (fun p _ => by simp [spherical_coordinates, hr, hc])]
  rfl

theorem slice_eq_range' {α : Type} (l : List α) (d : α) (a b : ℕ) :
    (l.drop a).take (b - a) =
      (List.range' a (min b l.length - a)).map (fun k => l.getD k d) := by
  apply List.ext_getElem
  · simp only [List.length_take, List.length_drop, List.length_map,
      List.length_range']
    omega
  · intro n h1 h2
    rw [List.getElem_take, List.getElem_drop, List.getElem_map,
      List.getElem_range']
    simp only [Nat.one_mul]
    rw [List.getD_eq_getElem _ _
      (by simp only [List.length_map, List.length_range'] at h2; omega)]

theorem lt_foldr_max_iff (l : List ℕ) (t : ℕ) :
    t < l.foldr max 0 ↔ ∃ x ∈ l, t < x := by
  induction l with
  | nil => simp
  | cons a tl ih => simp [lt_max_iff, ih]

theorem is_flat_iff (m : List (List ℤ)) (i j t dist : ℕ) :
    is_neighbourhood_flat m i j t dist = true ↔
      ∃ v ∈ find_neighbours m i j dist,
        t < (find_neighbours m i j dist).count v := by
  unfold is_neighbourhood_flat
  rw [decide_eq_true_iff, lt_foldr_max_iff]
  simp [List.mem_map]

theorem find_neighbours_eq_specWindow (m : List (List ℤ)) (rows cols i j dist : ℕ)
    (hm : m.length = rows) (hrect : ∀ row ∈ m, row.length = cols) :
    find_neighbours m i j dist = specWindow m rows cols i j dist := by
  unfold find_neighbours specWindow
  rw [slice_eq_range' m [] (i - 1) (i + dist + 1), hm, List.map_map,
    List.flatMap_def]
  refine congrArg List.flatten (List.map_congr_left ?_)
  intro r hr
  rw [List.mem_range'_1] at hr
  have hrm : r < m.length := by rw [hm]; omega
  simp only [Function.comp_apply]
  rw [slice_eq_range' (m.getD r []) 0 (j - dist) (j + dist + 1)]
  rw [List.getD_eq_getElem m [] hrm, hrect _ (List.getElem_mem hrm)]

theorem mesh_vertices_eq (heights : List (List ℤ)) (rows cols : ℕ)
    (sea_level : ℤ) :
    (build_map_mesh heights rows cols sea_level).vertices =
      (cellList rows cols).map (fun p =>
        sphericalValue p.1 p.2 (cellHeight heights sea_level p.1 p.2)
          rows cols) := rfl

theorem mesh_scalars_eq (heights : List (List ℤ)) (rows cols : ℕ)
    (sea_level : ℤ) :
    (build_map_mesh heights rows cols sea_level).scalars =
      (cellList rows cols).map (fun p =>
        cellScalar heights sea_level p.1 p.2) := rfl

theorem mesh_vertices_length (heights : List (List ℤ)) (rows cols : ℕ)
    (sea_level : ℤ) :
    (build_map_mesh heights rows cols sea_level).vertices.length
      = rows * cols := by
  rw [mesh_vertices_eq, List.length_map, length_cellList]

theorem mesh_scalars_length (heights : List (List ℤ)) (rows cols : ℕ)
    (sea_level : ℤ) :
    (build_map_mesh heights rows cols sea_level).scalars.length
      = rows * cols := by
  rw [mesh_scalars_eq, List.length_map, length_cellList]

theorem mesh_vertices_getD (heights : List (List ℤ)) (rows cols : ℕ)
    (sea_level : ℤ) {i j : ℕ} (hi : i < rows) (hj : j < cols) :
    (build_map_mesh heights rows cols sea_level).vertices.getD
        (coord_to_idx i j cols) (0, 0, 0) =
      sphericalValue i j (cellHeight heights sea_level i j) rows cols := by
  rw [mesh_vertices_eq]
  unfold coord_to_idx
  rw [getD_map _ _ _ _ (0, 0) (by rw [length_cellList]; exact idx_lt hi hj)]
  rw [getD_cellList hi hj]

theorem mesh_scalars_getD (heights : List (List ℤ)) (rows cols : ℕ)
    (sea_level : ℤ) {i j : ℕ} (hi : i < rows) (hj : j < cols) :
    (build_map_mesh heights rows cols sea_level).scalars.getD
        (coord_to_idx i j cols) 0 = cellScalar heights sea_level i j := by
  rw [mesh_scalars_eq]
  unfold coord_to_idx
  rw [getD_map _ _ _ _ (0, 0) (by rw [length_cellList]; exact idx_lt hi hj)]
  rw [getD_cellList hi hj]

/-! ### Claim theorems -/

/-- C1: `build_map` emits the quad
`(idx(i,j), idx(i,j+1), idx(i-1,j+1), idx(i-1,j))` for cell `(i, j)` exactly
when `i ≠ 0` and `j ≠ 3000` (the hardcoded sentinel literal); consequently,
for every grid with `cols ≤ 3000`, a quad is emitted for every cell with
`i ≥ 1`, including the cells of the last column. -/
theorem claim_C1_face_emission (heights : List (List ℤ)) (sea_level : ℤ)
    (rows cols i j : ℕ) (hi : i < rows) (hj : j < cols) :
    (quadAt i j cols ∈ (build_map_mesh heights rows cols sea_level).cells ↔
      i ≠ 0 ∧ j ≠ 3000) ∧
    (cols ≤ 3000 → 1 ≤ i →
      quadAt i j cols ∈ (build_map_mesh heights rows cols sea_level).cells) := by
  have hc : (build_map_mesh heights rows cols sea_level).cells
      = cellsOf rows cols := rfl
  rw [hc]
  exact ⟨mem_cellsOf hi hj,
    fun h3000 h1 => (mem_cellsOf hi hj).mpr ⟨by omega, by omega⟩⟩

/-- Witness for C1 at the concrete grid `[[1,2],[3,4]]`, cell `(1, 1)`. -/
theorem claim_C1_face_emission_witness :
    ((1:ℕ) < 2 ∧ (1:ℕ) < 2) ∧
    ((quadAt 1 1 2 ∈ (build_map_mesh [[1, 2], [3, 4]] 2 2 0).cells ↔
       (1:ℕ) ≠ 0 ∧ (1:ℕ) ≠ 3000) ∧
     ((2:ℕ) ≤ 3000 → (1:ℕ) ≤ 1 →
       quadAt 1 1 2 ∈ (build_map_mesh [[1, 2], [3, 4]] 2 2 0).cells)) :=
  ⟨⟨by decide, by decide⟩,
   claim_C1_face_emission [[1, 2], [3, 4]] 0 2 2 1 1 (by decide) (by decide)⟩

/-- C2: for `2 ≤ cols` with `cols - 1 ≠ 3000`, the quad emitted at the last
column `j = cols - 1` of a row `i ≥ 1` is in the cell list, and its second
vertex index is `idx(i, cols) = i * cols + cols`, which is the index of the
first vertex of the next row (`idx(i+1, 0)`); for the bottom-right cell
(`i = rows - 1`) that index equals `rows * cols`, which is not below the
number of vertices, hence outside the valid vertex index range. -/
theorem claim_C2_last_column_wraparound (heights : List (List ℤ))
    (sea_level : ℤ) (rows cols i : ℕ) (hc : 2 ≤ cols) (hs : cols - 1 ≠ 3000)
    (h1 : 1 ≤ i) (hr : i < rows) :
    quadAt i (cols - 1) cols ∈
        (build_map_mesh heights rows cols sea_level).cells ∧
    (quadAt i (cols - 1) cols).2.1 = i * cols + cols ∧
    coord_to_idx i cols cols = coord_to_idx (i + 1) 0 cols ∧
    (quadAt (rows - 1) (cols - 1) cols).2.1 = rows * cols ∧
    ¬ (quadAt (rows - 1) (cols - 1) cols).2.1 <
        (build_map_mesh heights rows cols sea_level).vertices.length := by
  have hsub : cols - 1 + 1 = cols := by omega
  have hq : ∀ a : ℕ, (quadAt a (cols - 1) cols).2.1 = a * cols + cols := by
    intro a
    simp only [quadAt, coord_to_idx]
    rw [hsub, Nat.add_comm]
  have h4 : (rows - 1) * cols + cols = rows * cols := by
    obtain ⟨r', rfl⟩ : ∃ r', rows = r' + 1 := ⟨rows - 1, by omega⟩
    simp only [Nat.add_sub_cancel]
    rw [Nat.succ_mul]
  have hlen := mesh_vertices_length heights rows cols sea_level
  refine ⟨(mem_cellsOf hr (by omega)).mpr ⟨by omega, hs⟩, hq i, ?_, ?_, ?_⟩
  · simp only [coord_to_idx]
    rw [Nat.zero_add, Nat.succ_mul, Nat.add_comm]
  · rw [hq (rows - 1)]; exact h4
  · rw [hq (rows - 1), hlen, h4]; exact lt_irrefl _

/-- Witness for C2 at the concrete grid `[[1,2],[3,4]]`, row `i = 1`. -/
theorem claim_C2_last_column_wraparound_witness :
    ((2:ℕ) ≤ 2 ∧ (2:ℕ) - 1 ≠ 3000 ∧ (1:ℕ) ≤ 1 ∧ (1:ℕ) < 2) ∧
    (quadAt 1 (2 - 1) 2 ∈ (build_map_mesh [[1, 2], [3, 4]] 2 2 0).cells ∧
     (quadAt 1 (2 - 1) 2).2.1 = 1 * 2 + 2 ∧
     coord_to_idx 1 2 2 = coord_to_idx (1 + 1) 0 2 ∧
     (quadAt (2 - 1) (2 - 1) 2).2.1 = 2 * 2 ∧
     ¬ (quadAt (2 - 1) (2 - 1) 2).2.1 <
        (build_map_mesh [[1, 2], [3, 4]] 2 2 0).vertices.length) :=
  ⟨⟨by decide, by decide, by decide, by decide⟩,
   claim_C2_last_column_wraparound [[1, 2], [3, 4]] 0 2 2 1
     (by decide) (by decide) (by decide) (by decide)⟩

/-- C3 counterexample: a grid with `rows = 0 < 2` on which the claimed
failure does not happen — the loop body of `build_map` never runs, no
projection is attempted, and the build succeeds with an empty mesh instead
of failing (with any error, let alone a `ConfigError`, which does not exist
anywhere in the code). -/
theorem claim_C3_counterexample :
    (0:ℕ) < 2 ∧
    build_map ([] : List (List ℤ)) 0 2 0 = some (build_map_mesh [] 0 2 0) :=
  ⟨by decide, rfl⟩

/-- C3 (amended): for a grid with at least one row and one column and
`rows = 1` or `cols = 1`, `build_map` fails (with Python's
`ZeroDivisionError`, not a `ConfigError`) and produces nothing; the very
first projection call already fails, so no vertex is produced before the
failure. -/
theorem claim_C3_degenerate_grid_failure (heights : List (List ℤ))
    (sea_level : ℤ) (rows cols : ℕ) (hr : 1 ≤ rows) (hc : 1 ≤ cols)
    (h : rows = 1 ∨ cols = 1) :
    build_map heights rows cols sea_level = none ∧
    spherical_coordinates 0 0 (cellHeight heights sea_level 0 0) rows cols
      = none := by
  have key : ∀ (lat long : ℕ) (d : ℤ),
      spherical_coordinates lat long d rows cols = none := by
    intro lat long d
    unfold spherical_coordinates
    rw [if_pos h]
  have hne : cellList rows cols ≠ [] := by
    have hpos : 0 < (cellList rows cols).length := by
      rw [length_cellList]; exact Nat.mul_pos hr hc
    exact List.length_pos.mp hpos
  refine ⟨?_, key 0 0 _⟩
  unfold build_map
  rw [seqOption_eq_none _ _ hne (fun p => key p.1 p.2 _)]

/-- Witness for C3 (amended) at the concrete `1 × 2` grid `[[5, 7]]`. -/
theorem claim_C3_degenerate_grid_failure_witness :
    ((1:ℕ) ≤ 1 ∧ (1:ℕ) ≤ 2 ∧ ((1:ℕ) = 1 ∨ (2:ℕ) = 1)) ∧
    build_map [[5, 7]] 1 2 0 = none ∧
    spherical_coordinates 0 0 (cellHeight [[5, 7]] 0 0 0) 1 2 = none :=
  ⟨⟨by decide, by decide, by decide⟩,
   (claim_C3_degenerate_grid_failure [[5, 7]] 0 1 2
     (by decide) (by decide) (by decide)).1,
   (claim_C3_degenerate_grid_failure [[5, 7]] 0 1 2
     (by decide) (by decide) (by decide)).2⟩

/-- C4: for every grid cell `(i, j)`, threshold and distance, the flatness
classifier gathers exactly the window with rows `[max(0,i-1) .. i+dist]` and
cols `[max(0,j-dist) .. j+dist]` (the row lower bound fixed at `i-1`), and
returns true iff the maximum occurrence count of some value in that window
strictly exceeds the threshold. -/
theorem claim_C4_flatness_window (m : List (List ℤ)) (rows cols i j t dist : ℕ)
    (hm : m.length = rows) (hrect : ∀ row ∈ m, row.length = cols)
    (_hi : i < rows) (_hj : j < cols) :
    find_neighbours m i j dist = specWindow m rows cols i j dist ∧
    (is_neighbourhood_flat m i j t dist = true ↔
      ∃ v ∈ specWindow m rows cols i j dist,
        t < (specWindow m rows cols i j dist).count v) := by
  have hw := find_neighbours_eq_specWindow m rows cols i j dist hm hrect
  refine ⟨hw, ?_⟩
  rw [is_flat_iff, hw]

/-- Witness for C4 at the concrete grid `[[1,1],[1,2]]`, cell `(0, 0)`,
threshold `2`, distance `1`. -/
theorem claim_C4_flatness_window_witness :
    (([[1, 1], [1, 2]] : List (List ℤ)).length = 2 ∧
     (∀ row ∈ ([[1, 1], [1, 2]] : List (List ℤ)), row.length = 2) ∧
     (0:ℕ) < 2 ∧ (0:ℕ) < 2) ∧
    (find_neighbours [[1, 1], [1, 2]] 0 0 1 =
       specWindow [[1, 1], [1, 2]] 2 2 0 0 1 ∧
     (is_neighbourhood_flat [[1, 1], [1, 2]] 0 0 2 1 = true ↔
       ∃ v ∈ specWindow [[1, 1], [1, 2]] 2 2 0 0 1,
         2 < (specWindow [[1, 1], [1, 2]] 2 2 0 0 1).count v)) :=
  ⟨⟨by decide, by decide, by decide, by decide⟩,
   claim_C4_flatness_window [[1, 1], [1, 2]] 2 2 0 0 2 1
     (by decide) (by decide) (by decide) (by decide)⟩

/-- C5 counterexample: on the all-100 4 × 4 grid with `sea_level = 0`, the
scalar of the corner cell `(0, 0)` is `100`, not `0`: its flatness window
is only the 2 × 2 corner block, so the maximal count (4) does not exceed
`NBR_VAL_FLAT = 8` and the cell is not classified flat. -/
theorem claim_C5_counterexample :
    (build_map_mesh allHundred 4 4 0).scalars.getD 0 0 = 100 ∧
    (build_map_mesh allHundred 4 4 0).scalars.getD 0 0 ≠ 0 :=
  ⟨by decide, by decide⟩

/-- C5 (amended): on the all-100 4 × 4 grid with `sea_level = 0`, the build
succeeds; the scalars are `0` exactly at the four interior cells
(`i, j ∈ {1, 2}`, whose 3 × 3 windows have count 9 > 8) and `100` at the
twelve border cells; every vertex is projected with height 100. -/
theorem claim_C5_uniform_grid :
    build_map allHundred 4 4 0 = some (build_map_mesh allHundred 4 4 0) ∧
    (build_map_mesh allHundred 4 4 0).scalars =
      [100, 100, 100, 100,
       100, 0, 0, 100,
       100, 0, 0, 100,
       100, 100, 100, 100] ∧
    (build_map_mesh allHundred 4 4 0).vertices =
      (cellList 4 4).map fun p => sphericalValue p.1 p.2 100 4 4 :=
  ⟨build_map_eq_some _ _ _ _ (by decide) (by decide), by decide, rfl⟩

/-- C6: for every grid cell and every sea level, the vertex height passed to
the projector is `max(sea_level, grid[i][j])`, and the stored scalar is `0`
when the cell is classified flat or `grid[i][j] ≤ sea_level`, and otherwise
the raw unclamped `grid[i][j]`. -/
theorem claim_C6_height_and_scalar (heights : List (List ℤ)) (sea_level : ℤ)
    (rows cols i j : ℕ) (hi : i < rows) (hj : j < cols) :
    cellHeight heights sea_level i j = max sea_level (hVal heights i j) ∧
    (build_map_mesh heights rows cols sea_level).vertices.getD
        (coord_to_idx i j cols) (0, 0, 0) =
      sphericalValue i j (max sea_level (hVal heights i j)) rows cols ∧
    (build_map_mesh heights rows cols sea_level).scalars.getD
        (coord_to_idx i j cols) 0 =
      (if is_neighbourhood_flat heights i j NBR_VAL_FLAT 1 = true
          ∨ hVal heights i j ≤ sea_level
       then 0 else hVal heights i j) := by
  have hmax : cellHeight heights sea_level i j
      = max sea_level (hVal heights i j) := by
    unfold cellHeight
    rcases le_or_lt (hVal heights i j) sea_level with h | h
    · rw [if_pos h, max_eq_left h]
    · rw [if_neg (not_le.mpr h), max_eq_right (le_of_lt h)]
  refine ⟨hmax, by rw [mesh_vertices_getD heights rows cols sea_level hi hj, hmax], ?_⟩
  rw [mesh_scalars_getD heights rows cols sea_level hi hj]
  unfold cellScalar
  simp only [Bool.or_eq_true, decide_eq_true_iff]

/-- Witness for C6 at the concrete grid `[[1,2],[3,4]]`, cell `(1, 0)`,
`sea_level = 2`. -/
theorem claim_C6_height_and_scalar_witness :
    ((1:ℕ) < 2 ∧ (0:ℕ) < 2) ∧
    (cellHeight [[1, 2], [3, 4]] 2 1 0 = max 2 (hVal [[1, 2], [3, 4]] 1 0) ∧
     (build_map_mesh [[1, 2], [3, 4]] 2 2 2).vertices.getD
         (coord_to_idx 1 0 2) (0, 0, 0) =
       sphericalValue 1 0 (max 2 (hVal [[1, 2], [3, 4]] 1 0)) 2 2 ∧
     (build_map_mesh [[1, 2], [3, 4]] 2 2 2).scalars.getD
         (coord_to_idx 1 0 2) 0 =
       (if is_neighbourhood_flat [[1, 2], [3, 4]] 1 0 NBR_VAL_FLAT 1 = true
           ∨ hVal [[1, 2], [3, 4]] 1 0 ≤ 2
        then 0 else hVal [[1, 2], [3, 4]] 1 0)) :=
  ⟨⟨by decide, by decide⟩,
   claim_C6_height_and_scalar [[1, 2], [3, 4]] 2 2 2 1 0
     (by decide) (by decide)⟩

/-- C7: `spherical_coordinates` is a pure function of its arguments, and at
`(row, col, elevation) = (0, 0, 0)` it uses `delta = radians(47.5)`,
`theta = radians(5)` and `rho = 6371009`, yielding exactly the closed-form
trig expansion, for every grid size that does not make it raise. -/
theorem claim_C7_projection_formula (rows cols : ℕ) (hr : rows ≠ 1)
    (hc : cols ≠ 1) :
    spherical_coordinates 0 0 0 rows cols =
      some ((6371009 : ℝ) * Real.cos (radians 47.5) * Real.cos (radians 5),
            (6371009 : ℝ) * Real.cos (radians 47.5) * Real.sin (radians 5),
            (6371009 : ℝ) * Real.sin (radians 47.5)) := by
  unfold spherical_coordinates
  rw [if_neg (by simp [hr, hc])]
  simp [sphericalValue, EARTH_RADIUS, LAT_MAX, LONG_MIN]

/-- Witness for C7 at the grid size `rows = cols = 2`. -/
theorem claim_C7_projection_formula_witness :
    ((2:ℕ) ≠ 1 ∧ (2:ℕ) ≠ 1) ∧
    spherical_coordinates 0 0 0 2 2 =
      some ((6371009 : ℝ) * Real.cos (radians 47.5) * Real.cos (radians 5),
            (6371009 : ℝ) * Real.cos (radians 47.5) * Real.sin (radians 5),
            (6371009 : ℝ) * Real.sin (radians 47.5)) :=
  ⟨⟨by decide, by decide⟩, claim_C7_projection_formula 2 2 (by decide) (by decide)⟩

/-- C8 counterexample: with a degenerate elevation range (`min_alt = max_alt
= 100`, so `nbr_colors = 0`) the built table is empty — zero entries, not
the single-entry table the claim demands. -/
theorem claim_C8_counterexample :
    (buildLUT 100 100).colors = [] ∧ (buildLUT 100 100).colors.length ≠ 1 :=
  ⟨rfl, by decide⟩

/-- C8 (amended): whenever the elevation range is degenerate
(`max_alt ≤ min_alt`, so `nbr_colors = 0`), the sampling loop never runs
and the built lookup table has an empty color list (the code has no
single-entry fallback; no division is performed in the repository code on
this path). -/
theorem claim_C8_degenerate_range (min_alt max_alt : ℤ)
    (h : max_alt ≤ min_alt) :
    nbr_colors min_alt max_alt = 0 ∧ (buildLUT min_alt max_alt).colors = [] := by
  have h0 : nbr_colors min_alt max_alt = 0 := by unfold nbr_colors; omega
  have hcol : (buildLUT min_alt max_alt).colors
      = (List.range (nbr_colors min_alt max_alt)).map (fun (alt : ℕ) =>
          getColor (ramp_points min_alt max_alt) ((min_alt : ℚ) + (alt : ℚ)))
      := rfl
  exact ⟨h0, by rw [hcol, h0]; rfl⟩

/-- Witness for C8 (amended) at `min_alt = 7`, `max_alt = 3`. -/
theorem claim_C8_degenerate_range_witness :
    ((3:ℤ) ≤ 7) ∧ nbr_colors 7 3 = 0 ∧ (buildLUT 7 3).colors = [] :=
  ⟨by decide, (claim_C8_degenerate_range 7 3 (by decide)).1,
   (claim_C8_degenerate_range 7 3 (by decide)).2⟩

/-- C9: for `min_alt = 0`, `max_alt = 2000` the built lookup table has
`nbr_colors = 2000` entries, sampled at altitude `min_alt + k` for each
offset `k`, and its color at offset `0` is exactly the green control-point
color `(0.25, 0.46, 0.24)` of the gradient `(min_alt, green)`,
`(mid_alt - 1000, beige)`, `(max_alt - 1000, white)`. -/
theorem claim_C9_green_at_offset_zero :
    (buildLUT 0 2000).colors.getD 0 (0, 0, 0) = (0.25, 0.46, 0.24) ∧
    (buildLUT 0 2000).colors.length = 2000 := by
  have hcol : ∀ a b : ℤ, (buildLUT a b).colors
      = (List.range (nbr_colors a b)).map (fun (alt : ℕ) =>
          getColor (ramp_points a b) ((a : ℚ) + (alt : ℚ))) := fun a b => rfl
  have hn : nbr_colors 0 2000 = 2000 := by decide
  constructor
  · rw [hcol, getD_map _ _ _ _ 0 (by rw [List.length_range, hn]; omega)]
    rw [List.getD_eq_getElem _ _ (by rw [List.length_range, hn]; omega),
      List.getElem_range]
    norm_num [getColor, ramp_points]
  · rw [hcol, List.length_map, List.length_range, hn]

/-- C10: for every valid grid (`rows ≥ 2`, `cols ≥ 2`) and every sea level,
`build_map` succeeds and produces exactly `rows * cols` vertices and
`rows * cols` scalars, with the scalar of cell `(i, j)` stored at index
`j + i * cols` — the same index as its vertex. -/
theorem claim_C10_mesh_invariants (heights : List (List ℤ)) (sea_level : ℤ)
    (rows cols : ℕ) (hr : 2 ≤ rows) (hc : 2 ≤ cols) :
    build_map heights rows cols sea_level =
      some (build_map_mesh heights rows cols sea_level) ∧
    (build_map_mesh heights rows cols sea_level).vertices.length
      = rows * cols ∧
    (build_map_mesh heights rows cols sea_level).scalars.length
      = rows * cols ∧
    ∀ i j, i < rows → j < cols →
      (build_map_mesh heights rows cols sea_level).scalars.getD
          (coord_to_idx i j cols) 0 = cellScalar heights sea_level i j ∧
      (build_map_mesh heights rows cols sea_level).vertices.getD
          (coord_to_idx i j cols) (0, 0, 0) =
        sphericalValue i j (cellHeight heights sea_level i j) rows cols := by
  refine ⟨build_map_eq_some _ _ _ _ (by omega) (by omega),
    mesh_vertices_length heights rows cols sea_level,
    mesh_scalars_length heights rows cols sea_level, ?_⟩
  intro i j hi hj
  exact ⟨mesh_scalars_getD heights rows cols sea_level hi hj,
    mesh_vertices_getD heights rows cols sea_level hi hj⟩

/-- Witness for C10 at the concrete grid `[[1,2],[3,4]]`. -/
theorem claim_C10_mesh_invariants_witness :
    ((2:ℕ) ≤ 2 ∧ (2:ℕ) ≤ 2) ∧
    (build_map [[1, 2], [3, 4]] 2 2 0 =
       some (build_map_mesh [[1, 2], [3, 4]] 2 2 0) ∧
     (build_map_mesh [[1, 2], [3, 4]] 2 2 0).vertices.length = 2 * 2 ∧
     (build_map_mesh [[1, 2], [3, 4]] 2 2 0).scalars.length = 2 * 2 ∧
     ∀ i j, i < 2 → j < 2 →
       (build_map_mesh [[1, 2], [3, 4]] 2 2 0).scalars.getD
           (coord_to_idx i j 2) 0 = cellScalar [[1, 2], [3, 4]] 0 i j ∧
       (build_map_mesh [[1, 2], [3, 4]] 2 2 0).vertices.getD
           (coord_to_idx i j 2) (0, 0, 0) =
         sphericalValue i j (cellHeight [[1, 2], [3, 4]] 0 i j) 2 2) :=
  ⟨⟨by decide, by decide⟩,
   claim_C10_mesh_invariants [[1, 2], [3, 4]] 0 2 2 (by decide) (by decide)⟩

end ColorMapping
